import Mathlib

/-!
Verification development for the spreadsheet-formula parser, dependency
analyzer and validator of the AI service
(`src/backend/services/ai/src/utils/formula_parser.py` and
`src/backend/services/ai/src/utils/validation.py`).

The Python code is shallowly embedded: every function is translated to a
total Lean function over `List Char` / `String`.  Regular expressions are
replaced by deterministic matchers that realise the backtracking
behaviour of the concrete patterns used in the source (each pattern is
simple enough that greedy matching plus the disjointness of the involved
character classes makes the match deterministic; this is argued next to
each matcher).  Character classes are modelled over ASCII.  Python
exceptions are modelled with `Except`; the recursion budget of the
interpreter (which turns deep recursion into `RecursionError`) is an
explicit fuel parameter.
-/

namespace Vexcel

/-- `ERROR_CODES['AI_002']` from `constants.py`. -/
def errAI002 : String :=
  "Formula Generation Failed - Unable to generate formula. Check input parameters"

/-- `ERROR_CODES['AI_003']` from `constants.py`. -/
def errAI003 : String :=
  "Invalid Input Format - Input data does not match required schema"

/-- ASCII model of Python `\s` / `str.isspace`. -/
def pyIsSpace (c : Char) : Bool :=
  c = ' ' || c = '\t' || c = '\n' || c = '\r' || c = '\x0b' || c = '\x0c'

/-- ASCII model of `[A-Za-z]` (also `[A-Z]` with `re.IGNORECASE`) and of
`char.isalpha()`. -/
def isLetterB (c : Char) : Bool :=
  ('A' ≤ c && c ≤ 'Z') || ('a' ≤ c && c ≤ 'z')

/-- The class `[A-Za-z0-9\s]` used for sheet names in the reference
pattern of `formula_parser.py`. -/
def isSClass (c : Char) : Bool :=
  isLetterB c || c.isDigit || pyIsSpace c

/-- The operator class `[\+\-\*/\^&=><]` of `_operator_pattern`. -/
def isOpChar (c : Char) : Bool :=
  ['+', '-', '*', '/', '^', '&', '=', '>', '<'].contains c

/-- Length of the maximal run of characters satisfying `p` at the head of
the list (a greedy `X*` / `X+` regex item). -/
def runLen (p : Char → Bool) (cs : List Char) : Nat :=
  (cs.takeWhile p).length

/-- Characters consumed by an optional single-character item `c?`:
one if the head is `c`, else zero. -/
def eatOpt (c : Char) (cs : List Char) : Nat :=
  if cs.head? = some c then 1 else 0

/-!
`_reference_pattern` of `formula_parser.py`:
`(?:\'?[A-Za-z0-9\s]+\'?!)?\$?[A-Z]+\$?\d+(?:\:\$?[A-Z]+\$?\d+)?`
(compiled with `re.IGNORECASE`).

Determinism: inside `\$?[A-Za-z]+\$?\d+` the letter run and the digit run
are taken greedily; shortening the letter run can never help, because the
following character would again be a letter, which matches neither `\$?`
followed by a digit nor a digit.  The same argument applies to the sheet
prefix (`'` and `!` are not in the sheet-name class) and to the range
extension (`:` is not a digit).  Hence each piece either matches with its
greedy length or not at all.
-/

/-- `\$?[A-Za-z]+\$?\d+`: characters consumed, or `none` when there is no
match at the head of the list. -/
def coreMatch (cs : List Char) : Option Nat :=
  let n1 := eatOpt '$' cs
  let n2 := runLen isLetterB (cs.drop n1)
  let n3 := eatOpt '$' (cs.drop (n1 + n2))
  let n4 := runLen Char.isDigit (cs.drop (n1 + n2 + n3))
  if n2 = 0 ∨ n4 = 0 then none else some (n1 + n2 + n3 + n4)

/-- `(?:\:\$?[A-Za-z]+\$?\d+)?`: characters consumed by the optional
range continuation (zero when it does not match). -/
def rangeExt (cs : List Char) : Nat :=
  if cs.head? = some ':' then
    match coreMatch cs.tail with
    | some n => n + 1
    | none => 0
  else 0

/-- `(?:\'?[A-Za-z0-9\s]+\'?!)`: characters consumed by the sheet-name
prefix including the final `!`, or `none`. -/
def preMatch (cs : List Char) : Option Nat :=
  let q := eatOpt '\'' cs
  let m := runLen isSClass (cs.drop q)
  if m = 0 then none
  else
    let q2 := eatOpt '\'' (cs.drop (q + m))
    if (cs.drop (q + m + q2)).head? = some '!' then some (q + m + q2 + 1) else none

/-- The cell-or-range part `\$?[A-Za-z]+\$?\d+(?:\:...)?`. -/
def coreRange (cs : List Char) : Option Nat :=
  (coreMatch cs).map (fun n => n + rangeExt (cs.drop n))

/-- The full reference pattern at the head of the list.  When the sheet
prefix matches but no cell follows the `!`, the regex engine backtracks
to the prefix-absent alternative; this is the `none` fallback below. -/
def refMatch (cs : List Char) : Option Nat :=
  match preMatch cs with
  | some p =>
    match coreMatch (cs.drop p) with
    | some c => some (p + c + rangeExt (cs.drop (p + c)))
    | none => coreRange cs
  | none => coreRange cs

/-- `re.findall` scan: try the matcher at each position, emit the matched
substring and continue after it, otherwise advance one character.  The
fuel starts at the length of the list; every step consumes at least one
character, so the budget is never exhausted when started that way.  The
matchers used here never match the empty string (a cell needs at least a
letter and a digit), so the zero-width case never arises. -/
def findallFuel (m : List Char → Option Nat) : Nat → List Char → List String
  | 0, _ => []
  | _, [] => []
  | fuel + 1, c :: rest =>
    match m (c :: rest) with
    | some (n + 1) => ((c :: rest.take n).asString) :: findallFuel m fuel (rest.drop n)
    | _ => findallFuel m fuel rest

/-- All matches of the reference pattern in a formula
(`_reference_pattern.findall`). -/
def extractRefs (f : String) : List String :=
  findallFuel refMatch f.toList.length f.toList

/-!  ## Tokenizer (`FormulaParser.tokenize`)  -/

/-- A token dict `{'type': ..., 'value': ..., 'position': ...}`. -/
structure Token where
  type : String
  value : String
  position : Nat
deriving DecidableEq, Repr

/-- The single failure return of `tokenize`: the
`Unexpected character at position {pos}: {char}` dictionary (its `error`
field is always `ERROR_CODES['AI_002']`). -/
structure TokErr where
  position : Nat
  char : Char
deriving DecidableEq, Repr

/-- The `details` string of the tokenize failure dictionary. -/
def tokErrDetails (e : TokErr) : String :=
  "Unexpected character at position " ++ toString e.position ++ ": " ++ e.char.toString

/-- Error kinds named by the specification for the tokenizer. -/
inductive SpecErrorKind where
  | unexpectedCharacter
  | unterminatedString
deriving DecidableEq, Repr

/-- Classification of a tokenizer failure by the return site that
produced it: `tokenize` has exactly one failure site (the
`Unexpected character ...` return), so every failure is of kind
`unexpectedCharacter`. -/
def tokErrKind (_ : TokErr) : SpecErrorKind :=
  SpecErrorKind.unexpectedCharacter

/-- `([A-Z]+)(?=\()` (IGNORECASE) matched at the head: the maximal letter
run when the character after it is `(`. -/
def funcMatch (cs : List Char) : Option Nat :=
  let l := runLen isLetterB cs
  if l ≠ 0 ∧ (cs.drop l).head? = some '(' then some l else none

/-- Offset of the first `"` in the list, if any (the inner scan of the
string-literal branch of `tokenize`). -/
def findQuote : List Char → Option Nat
  | [] => none
  | c :: t => if c = '"' then some 0 else (findQuote t).map (· + 1)

/-- The scanning loop of `tokenize`.  `rest` is the unread suffix of the
formula and `pos` its absolute offset; the recognition order of the
branches is exactly that of the source.  An unterminated string literal
falls through to the same `Unexpected character` return as an
unrecognised character, with the position already advanced to the end of
the input.  Fuel bounds the number of iterations; each iteration consumes
at least one character, so `rest.length` is always enough. -/
def tokLoop : Nat → List Char → Nat → Except TokErr (List Token)
  | 0, _, _ => .ok []
  | _, [], _ => .ok []
  | fuel + 1, c :: t, pos =>
    if pyIsSpace c then tokLoop fuel t (pos + 1)
    else
      match (if isLetterB c then funcMatch (c :: t) else none) with
      | some l =>
        (tokLoop fuel ((c :: t).drop l) (pos + l)).map
          (⟨"function", ((c :: t).take l).asString, pos⟩ :: ·)
      | none =>
        match refMatch (c :: t) with
        | some n =>
          (tokLoop fuel ((c :: t).drop n) (pos + n)).map
            (⟨"reference", ((c :: t).take n).asString, pos⟩ :: ·)
        | none =>
          let oL := runLen isOpChar (c :: t)
          if oL ≠ 0 then
            (tokLoop fuel ((c :: t).drop oL) (pos + oL)).map
              (⟨"operator", ((c :: t).take oL).asString, pos⟩ :: ·)
          else if c = '(' ∨ c = ')' ∨ c = ',' ∨ c = ':' then
            (tokLoop fuel t (pos + 1)).map (⟨"delimiter", c.toString, pos⟩ :: ·)
          else if c.isDigit || c = '.' then
            let nL := runLen (fun ch => ch.isDigit || ch = '.') (c :: t)
            (tokLoop fuel ((c :: t).drop nL) (pos + nL)).map
              (⟨"number", ((c :: t).take nL).asString, pos⟩ :: ·)
          else if c = '"' then
            match findQuote t with
            | some k =>
              (tokLoop fuel ((c :: t).drop (k + 2)) (pos + k + 2)).map
                (⟨"string", ((c :: t).take (k + 2)).asString, pos⟩ :: ·)
            | none => .error ⟨pos + (c :: t).length, '"'⟩
          else .error ⟨pos, c⟩

/-- `FormulaParser.tokenize`: scanning starts at `current_pos = 1`
(the character at index 0 is never examined). -/
def tokenize (f : String) : Except TokErr (List Token) :=
  tokLoop (f.toList.drop 1).length (f.toList.drop 1) 1

/-!  ## Parser / AST builder (`FormulaParser.build_ast`, `_build_tree`)  -/

/-- An AST node: the dictionaries built by `_build_tree`.  An operand
node carries the token type of the originating token as its own type
tag. -/
inductive Ast where
  | operand (kind : String) (value : String)
  | operation (operator : String) (left : Ast) (right : Ast)
  | func (name : String) (arguments : List Ast)
deriving Repr

/-- Items held on the shunting-yard operator stack. -/
inductive StackItem where
  | op (value : String)
  | fn (value : String) (argCount : Nat)
  | leftParen
deriving DecidableEq, Repr

/-- Items appended to the shunting-yard output (postfix) list.
`funcFrame` is a raw function stack frame popped to the output by the
final drain (its dict keeps `'type': 'function'`), which `_build_tree`
silently ignores. -/
inductive PF where
  | operand (value : String) (tokenType : String)
  | op (value : String)
  | funcCall (value : String) (argCount : Nat)
  | funcFrame (value : String) (argCount : Nat)
deriving DecidableEq, Repr

/-- Errors of `build_ast`: `ret` models an explicit error-dictionary
return (its `details` string), `exc` a Python exception caught by the
surrounding `except` block (the `str` of the exception). -/
inductive SYErr where
  | ret (details : String)
  | exc (msg : String)
deriving DecidableEq, Repr

/-- Precedence and associativity, from the `operators` table of
`build_ast`. -/
structure OpInfo where
  prec : Nat
  assoc : String
deriving DecidableEq, Repr

/-- The `operators` dictionary of `build_ast`; `none` models a
`KeyError` on lookup. -/
def opTable : String → Option OpInfo
  | "+" => some ⟨1, "left"⟩
  | "-" => some ⟨1, "left"⟩
  | "*" => some ⟨2, "left"⟩
  | "/" => some ⟨2, "left"⟩
  | "^" => some ⟨3, "right"⟩
  | "&" => some ⟨1, "left"⟩
  | "=" => some ⟨0, "left"⟩
  | ">" => some ⟨0, "left"⟩
  | "<" => some ⟨0, "left"⟩
  | _ => none

/-- `str(KeyError(v))` — the message of a failed dictionary lookup. -/
def keyErrMsg (v : String) : String := "'" ++ v ++ "'"

/-- The pop-while loop of the operator branch: while the stack top is an
operator and the precedence/associativity condition holds, pop it to the
output.  The current operator is looked up first, then the top operator,
matching the evaluation order of the Python condition; either lookup can
raise `KeyError`. -/
def precPop (cur : String) : List StackItem → List PF → Except SYErr (List StackItem × List PF)
  | .op topv :: r, out =>
    match opTable cur with
    | none => .error (.exc (keyErrMsg cur))
    | some ci =>
      match opTable topv with
      | none => .error (.exc (keyErrMsg topv))
      | some ti =>
        if (ci.assoc = "left" ∧ ci.prec ≤ ti.prec) ∨ (ci.assoc = "right" ∧ ci.prec < ti.prec)
        then precPop cur r (out ++ [.op topv])
        else .ok (.op topv :: r, out)
  | st, out => .ok (st, out)

/-- Pop stack items to the output until a left parenthesis (or the empty
stack) is on top — the `while stack and stack[-1]['type'] != 'left_paren'`
loops of the `)` and `,` branches. -/
def popToParen : List StackItem → List PF → List StackItem × List PF
  | [], out => ([], out)
  | .leftParen :: r, out => (.leftParen :: r, out)
  | .op v :: r, out => popToParen r (out ++ [.op v])
  | .fn v a :: r, out => popToParen r (out ++ [.funcFrame v a])

/-- Empty the remaining stack at end of input: a leftover left
parenthesis is a `Mismatched parentheses` error, everything else is
popped to the output. -/
def drain : List StackItem → List PF → Except SYErr (List PF)
  | [], out => .ok out
  | .leftParen :: _, _ => .error (.ret "Mismatched parentheses")
  | .op v :: r, out => drain r (out ++ [.op v])
  | .fn v a :: r, out => drain r (out ++ [.funcFrame v a])

/-- The shunting-yard token loop of `build_ast`.  Note two faithful
quirks of the source: a `,` looks at the stack top only after popping
down to the left parenthesis, so the `arg_count` bump can never fire;
and a token matching none of the branches (e.g. a `:` delimiter) is
silently skipped. -/
def shuntRun : List Token → List StackItem → List PF → Except SYErr (List PF)
  | [], stack, out => drain stack out
  | tk :: rest, stack, out =>
    if tk.type = "number" ∨ tk.type = "string" ∨ tk.type = "reference" then
      shuntRun rest stack (out ++ [.operand tk.value tk.type])
    else if tk.type = "function" then
      shuntRun rest (.fn tk.value 0 :: stack) out
    else if tk.type = "operator" then
      match precPop tk.value stack out with
      | .error e => .error e
      | .ok (st', out') => shuntRun rest (.op tk.value :: st') out'
    else if tk.value = "(" then
      shuntRun rest (.leftParen :: stack) out
    else if tk.value = ")" then
      match popToParen stack out with
      | ([], _) => .error (.ret "Mismatched parentheses")
      | (_ :: rest', out') =>
        match rest' with
        | .fn v a :: r2 => shuntRun rest r2 (out' ++ [.funcCall v (a + 1)])
        | _ => shuntRun rest rest' out'
    else if tk.value = "," then
      match popToParen stack out with
      | ([], _) => .error (.ret "Invalid formula structure")
      | (top :: rest', out') =>
        match top with
        | .fn v a => shuntRun rest (.fn v (a + 1) :: rest') out'
        | _ => shuntRun rest (top :: rest') out'
    else shuntRun rest stack out

/-- `_build_tree`: postfix to tree.  The operand stack has its top at
the head; the final result is `stack[0]` (the bottom) or `None`.  A pop
from an empty stack is the `IndexError('pop from empty list')` raised by
Python. -/
def buildTree : List PF → List Ast → Except String (Option Ast)
  | [], stack => .ok stack.getLast?
  | .operand v tt :: rest, stack => buildTree rest (.operand tt v :: stack)
  | .op v :: rest, stack =>
    match stack with
    | right :: left :: s => buildTree rest (.operation v left right :: s)
    | _ => .error "pop from empty list"
  | .funcCall v argc :: rest, stack =>
    if argc ≤ stack.length then
      buildTree rest (.func v ((stack.take argc).reverse) :: stack.drop argc)
    else .error "pop from empty list"
  | .funcFrame _ _ :: rest, stack => buildTree rest stack

/-- Result of `build_ast`: the success dictionary with its tree, or the
failure dictionary with error code and details. -/
inductive BuildResult where
  | okr (tree : Option Ast)
  | err (code : String) (details : String)
deriving Repr

/-- `FormulaParser.build_ast`.  Explicit error returns keep their detail
strings; any exception (operator-table `KeyError`, `_build_tree` stack
underflow) is caught by the `except` block and reported as
`AST construction failed: {exc}` with code `AI_002`. -/
def buildAst (tokens : List Token) : BuildResult :=
  match shuntRun tokens [] [] with
  | .error (.ret d) => .err errAI002 d
  | .error (.exc m) => .err errAI002 ("AST construction failed: " ++ m)
  | .ok pf =>
    match buildTree pf [] with
    | .error m => .err errAI002 ("AST construction failed: " ++ m)
    | .ok t => .okr t

/-!  ## Dependency analyzer (`FormulaParser.analyze_dependencies`)  -/

/-- A cross-sheet entry `{'sheet': ..., 'reference': ...}`. -/
structure CrossRef where
  sheet : String
  reference : String
deriving DecidableEq, Repr

/-- The `validation` sub-dictionary of the dependency record. -/
structure DepValidation where
  success : Bool
  errors : List String
deriving DecidableEq, Repr

/-- The dependency record returned by `analyze_dependencies`. -/
structure DepRecord where
  direct : List String
  indirect : List String
  circular : List String
  cross_sheet : List CrossRef
  validation : DepValidation
deriving DecidableEq, Repr

/-- Python `ref.split('!')`. -/
def splitBang : List Char → List (List Char)
  | [] => [[]]
  | c :: rest =>
    if c = '!' then [] :: splitBang rest
    else
      match splitBang rest with
      | h :: t => (c :: h) :: t
      | [] => [[c]]

/-- Python `sheet.strip("'")`: remove every leading and trailing quote. -/
def stripQuotes (l : List Char) : List Char :=
  ((l.dropWhile (· = '\'')).reverse.dropWhile (· = '\'')).reverse

/-- Python `'!' in ref`. -/
def hasBang (r : String) : Bool :=
  r.toList.contains '!'

/-- The reference-classification loop of `analyze_dependencies`: a
reference containing `!` is split into sheet and cell (a `ValueError`
from the tuple unpacking — impossible for strings produced by the
reference pattern — is modelled as an exception), the sheet is stripped
of quotes and recorded as cross-sheet; any other reference is direct. -/
def classifyGo : List String → Except String (List String × List CrossRef)
  | [] => .ok ([], [])
  | r :: rs =>
    if hasBang r then
      match splitBang r.toList with
      | [a, b] =>
        match classifyGo rs with
        | .error e => .error e
        | .ok (d, c) => .ok (d, ⟨(stripQuotes a).asString, b.asString⟩ :: c)
      | _ => .error "not enough values to unpack (expected 2)"
    else
      match classifyGo rs with
      | .error e => .error e
      | .ok (d, c) => .ok (r :: d, c)

/-- Helper for `pyDedup`: keep elements not seen before. -/
def pyDedupAux : List String → List String → List String
  | _, [] => []
  | seen, x :: xs =>
    if seen.contains x then pyDedupAux seen xs
    else x :: pyDedupAux (x :: seen) xs

/-- Python `set(...)` iteration, determinized to first-occurrence
order (no claim below depends on the iteration order of a set). -/
def pyDedup (l : List String) : List String :=
  pyDedupAux [] l

/-- `'->'.join(path)` (the path set determinized to insertion order). -/
def arrowJoin : List String → String
  | [] => ""
  | [x] => x
  | x :: y :: t => x ++ "->" ++ arrowJoin (y :: t)

/-- Assoc lookup in the `_dependency_map` dictionary. -/
def lookupMap : List (String × List String) → String → Option (List String)
  | [], _ => none
  | (k, v) :: rest, r => if k = r then some v else lookupMap rest r

/-- `str(RecursionError())` raised when the interpreter's recursion
budget is exhausted. -/
def recMsg : String := "maximum recursion depth exceeded"

/-- The `for dep in self._dependency_map[ref]` loop: each dependency is
visited (by the recursive walk `rec`, at the same depth); an exception
aborts the whole walk. -/
def depLoop (rec : String → List String → List String → List String →
    Except String (List String × List String)) :
    List String → List String → List String → List String →
    Except String (List String × List String)
  | [], _, visited, acc => .ok (visited, acc)
  | d :: ds, path, visited, acc =>
    match rec d path visited acc with
    | .error e => .error e
    | .ok (v', a') => depLoop rec ds path v' a'

/-- `check_circular` of `_detect_circular_references`: depth-first walk
through the dependency map with a path set, a shared visited set and the
accumulated list of circular chains.  The fuel is the recursion budget of
the interpreter: each nested call costs one unit, and at zero the call
raises `RecursionError`. -/
def checkCircular (depMap : List (String × List String)) :
    Nat → String → List String → List String → List String →
    Except String (List String × List String)
  | 0, _, _, _, _ => .error recMsg
  | fuel + 1, ref, path, visited, acc =>
    if ref ∈ path then .ok (visited, acc ++ [arrowJoin path ++ "->" ++ ref])
    else if ref ∈ visited then .ok (visited, acc)
    else
      match lookupMap depMap ref with
      | none => .ok (visited ++ [ref], acc)
      | some deps =>
        depLoop (fun d p v a => checkCircular depMap fuel d p v a)
          deps (path ++ [ref]) (visited ++ [ref]) acc

/-- The `for ref in current_refs` loop of `_detect_circular_references`,
threading the visited set and the accumulated chains. -/
def runRefs (depMap : List (String × List String)) (fuel : Nat) :
    List String → List String × List String → Except String (List String × List String)
  | [], st => .ok st
  | r :: rs, st =>
    match checkCircular depMap fuel r [] st.1 st.2 with
    | .error e => .error e
    | .ok st' => runRefs depMap fuel rs st'

/-- `FormulaParser._detect_circular_references`.  The `formula` and
`sheet_name` parameters are unused by the source body. -/
def detectCircular (depMap : List (String × List String)) (fuel : Nat)
    (_formula _sheetName : String) (refs : List String) : Except String (List String) :=
  match runRefs depMap fuel refs ([], []) with
  | .error e => .error e
  | .ok st => .ok st.2

/-- The `try` body of `analyze_dependencies`: extract references,
classify them, run circular detection on the de-duplicated direct set,
and assemble the record.  An `.error` is a Python exception reaching the
`except` clause. -/
def analyzeCore (f s : String) (depMap : List (String × List String))
    (fuel : Nat) : Except String DepRecord :=
  match classifyGo (extractRefs f) with
  | .error e => .error e
  | .ok (d, c) =>
    match detectCircular depMap fuel f s (pyDedup d) with
    | .error e => .error e
    | .ok circ =>
      if circ.isEmpty then .ok ⟨d, [], [], c, ⟨true, []⟩⟩
      else .ok ⟨d, [], circ, c, ⟨false, ["Circular reference detected"]⟩⟩

/-- `FormulaParser.analyze_dependencies`: total — any internal failure
is caught and degraded to a record with empty reference lists,
`validation.success = False` and a descriptive message.  `depMap` is the
instance's `_dependency_map` (empty unless the caller populated it) and
`fuel` the interpreter's recursion budget (about 1000 in CPython). -/
def analyzeDependencies (f s : String) (depMap : List (String × List String))
    (fuel : Nat) : DepRecord :=
  match analyzeCore f s depMap fuel with
  | .ok r => r
  | .error e => ⟨[], [], [], [], ⟨false, ["Dependency analysis failed: " ++ e]⟩⟩

/-!  ## Validation layer (`validation.py`, class `FormulaValidator`)  -/

/-- The `ValidationResult` dataclass (`error_details` is never populated
by the checks modelled here and is omitted). -/
structure ValidationResult where
  is_valid : Bool
  error_message : String
  error_code : String
deriving DecidableEq, Repr

/-- The reference bounds read from the validation context
(`validation_context.get('max_rows', 1048576)` etc.). -/
structure ValidationContext where
  maxRows : Nat
  maxCols : Nat
deriving DecidableEq, Repr

/-- The defaults used when the context supplies no bounds. -/
def defaultContext : ValidationContext := ⟨1048576, 16384⟩

/-- `\$?[A-Za-z]{1,3}\$?\d+` at the head of the list.  The bounded
repetition `{1,3}` succeeds only when the maximal letter run has length
one to three: with a longer run every shorter prefix is followed by a
letter, which matches neither `\$?` before a digit nor `\d`. -/
def coreMatch3 (cs : List Char) : Option Nat :=
  let n1 := eatOpt '$' cs
  let n2 := runLen isLetterB (cs.drop n1)
  let n3 := eatOpt '$' (cs.drop (n1 + n2))
  let n4 := runLen Char.isDigit (cs.drop (n1 + n2 + n3))
  if 1 ≤ n2 ∧ n2 ≤ 3 ∧ 1 ≤ n4 then some (n1 + n2 + n3 + n4) else none

/-- The optional range continuation `(?::\$?[A-Za-z]{1,3}\$?\d+)?`. -/
def rangeExt3 (cs : List Char) : Nat :=
  if cs.head? = some ':' then
    match coreMatch3 cs.tail with
    | some n => n + 1
    | none => 0
  else 0

/-- `_reference_pattern` of `validation.py`:
`\$?[A-Za-z]{1,3}\$?\d+(?::\$?[A-Za-z]{1,3}\$?\d+)?`. -/
def valRefMatch (cs : List Char) : Option Nat :=
  (coreMatch3 cs).map (fun n => n + rangeExt3 (cs.drop n))

/-- `self._reference_pattern.findall(formula)`. -/
def findRefsVal (f : String) : List String :=
  findallFuel valRefMatch f.toList.length f.toList

/-- `_validate_reference_format`: the same shape anchored to the whole
string (`^...$`). -/
def refFormatOk (r : String) : Bool :=
  valRefMatch r.toList = some r.toList.length

/-- `_column_to_number`: base-26 conversion of column letters, `A = 1`. -/
def columnToNumber (col : String) : Nat :=
  col.toList.foldl (fun a c => a * 26 + (c.toUpper.toNat - 'A'.toNat + 1)) 0

/-- Python `int` on a run of digits. -/
def digitsToNat (s : String) : Nat :=
  s.toList.foldl (fun a c => a * 10 + (c.toNat - '0'.toNat)) 0

/-- The prefix match `re.match(r'\$?([A-Za-z]{1,3})\$?(\d+)', reference)`
in `_validate_reference_bounds`, returning the two groups. -/
def boundsParse (r : String) : Option (String × String) :=
  let cs := r.toList
  let n1 := eatOpt '$' cs
  let l := runLen isLetterB (cs.drop n1)
  if 1 ≤ l ∧ l ≤ 3 then
    let rest := cs.drop (n1 + l)
    let n3 := eatOpt '$' rest
    let d := runLen Char.isDigit (rest.drop n3)
    if 1 ≤ d then some (((cs.drop n1).take l).asString, ((rest.drop n3).take d).asString)
    else none
  else none

/-- `_validate_reference_bounds` (its unused `sheet_name` parameter is
dropped): row and column of the first cell of the reference must lie
within the context bounds. -/
def validateReferenceBounds (ctx : ValidationContext) (r : String) : Bool :=
  match boundsParse r with
  | none => false
  | some (col, row) =>
    let colNum := columnToNumber col
    let rowNum := digitsToNat row
    (1 ≤ rowNum && rowNum ≤ ctx.maxRows) && (1 ≤ colNum && colNum ≤ ctx.maxCols)

/-- The `for ref in references` loop of `validate_references`. -/
def refsLoop (ctx : ValidationContext) (existing : List String) :
    List String → ValidationResult
  | [] => ⟨true, "", ""⟩
  | r :: rs =>
    if existing.contains r then
      ⟨false, "Circular reference detected: " ++ r, errAI003⟩
    else if ¬ refFormatOk r then
      ⟨false, "Invalid cell reference format: " ++ r, errAI003⟩
    else if ¬ validateReferenceBounds ctx r then
      ⟨false, "Cell reference " ++ r ++ " is out of worksheet bounds", errAI003⟩
    else refsLoop ctx existing rs

/-- `FormulaValidator.validate_references` (the `sheet_name` parameter
is unused beyond being forwarded to the bounds check, which ignores it). -/
def validateReferences (ctx : ValidationContext) (formula _sheetName : String)
    (existing : List String) : ValidationResult :=
  refsLoop ctx existing (pyDedup (findRefsVal formula))

/-!
`FormulaValidator.validate_syntax`.  The pattern `^\s*=\s*([^=].*$)` is
realised exactly: maximal leading whitespace must be followed by `=`
(whitespace never matches `=`, so no backtracking arises there); after
`=` the engine may leave any part of the following whitespace run to
`[^=]` and `.*`, hence the bounded search below; `.` does not match a
newline and `$` matches at the end of the string or just before a final
newline.
-/

/-- `.*$` against the remainder of the string. -/
def dotStarOk (cs : List Char) : Bool :=
  cs.all (· ≠ '\n') ||
    (match cs.getLast? with
     | some '\n' => cs.dropLast.all (· ≠ '\n')
     | _ => false)

/-- `^\s*=\s*([^=].*$)` matched against the whole string. -/
def syntaxHeadOk (cs : List Char) : Bool :=
  let cs1 := cs.drop (runLen pyIsSpace cs)
  match cs1 with
  | '=' :: r =>
    (List.range (runLen pyIsSpace r + 1)).any (fun k =>
      match r.drop k with
      | [] => false
      | c :: rest => c ≠ '=' && dotStarOk rest)
  | _ => false

/-- Outcome of the bracket-balance scan. -/
inductive BracketOutcome where
  | balanced
  | unmatched
  | unclosed
deriving DecidableEq, Repr

/-- The closing bracket matching an opener (`brackets` dict). -/
def closingOf (c : Char) : Char :=
  if c = '(' then ')' else if c = '[' then ']' else '}'

/-- The bracket-balance loop of `validate_syntax`: openers are pushed, a
closer must match the popped opener. -/
def bracketScan : List Char → List Char → BracketOutcome
  | [], stack => if stack.isEmpty then .balanced else .unclosed
  | c :: rest, stack =>
    if c = '(' ∨ c = '[' ∨ c = '{' then bracketScan rest (c :: stack)
    else if c = ')' ∨ c = ']' ∨ c = '}' then
      match stack with
      | [] => .unmatched
      | t :: s => if c = closingOf t then bracketScan rest s else .unmatched
    else bracketScan rest stack

/-- `re.findall(r'[\+\-\*/]{2,}', formula)` is non-empty iff two
consecutive arithmetic-operator characters occur. -/
def hasDoubleOp : List Char → Bool
  | a :: b :: rest =>
    (['+', '-', '*', '/'].contains a && ['+', '-', '*', '/'].contains b) ||
      hasDoubleOp (b :: rest)
  | _ => false

/-- `MAX_FORMULA_LENGTH` (default of `FORMULA_GENERATION`). -/
def maxFormulaLength : Nat := 1000

/-- The pure body of `FormulaValidator.validate_syntax` (without the
`lru_cache` wrapper, modelled separately below). -/
def checkSyntax (formula : String) : ValidationResult :=
  if formula.length = 0 ∨ formula.length > maxFormulaLength then
    ⟨false, "Formula length exceeds maximum of 1000 characters", errAI003⟩
  else if ¬ syntaxHeadOk formula.toList then
    ⟨false, "Formula must start with '='", errAI003⟩
  else
    match bracketScan formula.toList [] with
    | .unmatched => ⟨false, "Unmatched brackets or parentheses", errAI003⟩
    | .unclosed => ⟨false, "Unclosed brackets or parentheses", errAI003⟩
    | .balanced =>
      if hasDoubleOp formula.toList then
        ⟨false, "Invalid operator combination found", errAI003⟩
      else ⟨true, "", ""⟩

/-- The memo table of the `@lru_cache` wrapper around `validate_syntax`
(recency bookkeeping is not observable through results and is omitted;
the table is unbounded here, the source caps it at 1000 entries). -/
def cacheFind : List (String × ValidationResult) → String → Option ValidationResult
  | [], _ => none
  | (k, v) :: rest, f => if k = f then some v else cacheFind rest f

/-- One call of the cached `validate_syntax`: a hit returns the stored
result, a miss computes `checkSyntax` and stores it. -/
def validateSyntaxCached (cache : List (String × ValidationResult)) (f : String) :
    ValidationResult × List (String × ValidationResult) :=
  match cacheFind cache f with
  | some r => (r, cache)
  | none => (checkSyntax f, (f, checkSyntax f) :: cache)

/-- Either no `!` at all, or exactly one `!` splitting the list into two
bang-free parts — the shape of every reference-pattern match. -/
def BangShape (l : List Char) : Prop :=
  '!' ∉ l ∨ ∃ a b, l = a ++ '!' :: b ∧ '!' ∉ a ∧ '!' ∉ b

/-- The cross-sheet entry built from one extracted reference: split at
the `!`, strip quotes from the sheet part (`analyze_dependencies`,
cross-sheet branch). -/
def crossOf (r : String) : CrossRef :=
  ⟨(stripQuotes ((splitBang r.toList).headD [])).asString,
   ((splitBang r.toList).getD 1 []).asString⟩

/-!  ## Structure of extracted references

The claims about `analyze_dependencies` need one invariant about the
reference pattern: every matched substring contains at most one `!`, and
when it contains one, the `!` separates a quote/sheet-class prefix from
cell characters.  The lemmas below prove this from the matcher
definitions, segment by segment.
-/

theorem take_len_takeWhile (p : Char → Bool) :
    ∀ l : List Char, l.take (l.takeWhile p).length = l.takeWhile p
  | [] => rfl
  | c :: t => by
    by_cases h : p c
    · simp [List.takeWhile_cons, h, take_len_takeWhile p t]
    · simp [List.takeWhile_cons, h]

theorem mem_take_runLen {p : Char → Bool} {l : List Char} {c : Char}
    (h : c ∈ l.take (runLen p l)) : p c = true := by
  rw [runLen, take_len_takeWhile] at h
  exact List.mem_takeWhile_imp h

theorem mem_take_eatOpt {l : List Char} {c x : Char}
    (h : x ∈ l.take (eatOpt c l)) : x = c := by
  cases l with
  | nil => simp [eatOpt] at h
  | cons a t =>
    by_cases hc : a = c
    · simp [eatOpt, hc] at h
      exact h
    · simp [eatOpt, List.head?, hc] at h

theorem coreMatch_noBang : ∀ {cs : List Char} {n : Nat},
    coreMatch cs = some n → '!' ∉ cs.take n := by
  intro cs n h hmem
  simp only [coreMatch] at h
  split at h
  · exact absurd h (by simp)
  · have hn := Option.some.inj h
    rw [← hn, List.take_add, List.take_add, List.take_add] at hmem
    simp only [List.mem_append] at hmem
    rcases hmem with ((h1 | h2) | h3) | h4
    · exact absurd (mem_take_eatOpt h1) (by decide)
    · exact absurd (mem_take_runLen h2) (by decide)
    · exact absurd (mem_take_eatOpt h3) (by decide)
    · exact absurd (mem_take_runLen h4) (by decide)

theorem rangeExt_noBang : ∀ {cs : List Char}, '!' ∉ cs.take (rangeExt cs) := by
  intro cs hmem
  unfold rangeExt at hmem
  split at hmem
  · rename_i hhead
    cases cs with
    | nil => simp at hhead
    | cons a t =>
      have ha : a = ':' := by simpa using hhead
      revert hmem
      split
      · rename_i n hcm
        intro hmem
        rw [List.take_succ_cons] at hmem
        rcases List.mem_cons.mp hmem with h1 | h2
        · rw [ha] at h1
          exact absurd h1 (by decide)
        · exact coreMatch_noBang hcm h2
      · intro hmem
        simp at hmem
  · simp at hmem

theorem preMatch_structure {cs : List Char} {p : Nat} (h : preMatch cs = some p) :
    ∃ a, cs.take p = a ++ ['!'] ∧ '!' ∉ a := by
  simp only [preMatch] at h
  split at h
  · exact absurd h (by simp)
  · split at h
    · rename_i hhead
      have hp := Option.some.inj h
      refine ⟨cs.take (eatOpt '\'' cs + runLen isSClass (cs.drop (eatOpt '\'' cs)) +
        eatOpt '\'' (cs.drop (eatOpt '\'' cs + runLen isSClass (cs.drop (eatOpt '\'' cs))))), ?_, ?_⟩
      · rw [← hp, List.take_add]
        congr 1
        cases hd : cs.drop (eatOpt '\'' cs + runLen isSClass (cs.drop (eatOpt '\'' cs)) +
            eatOpt '\'' (cs.drop (eatOpt '\'' cs + runLen isSClass (cs.drop (eatOpt '\'' cs))))) with
        | nil => rw [hd] at hhead; simp at hhead
        | cons x t =>
          rw [hd] at hhead
          simp only [List.head?_cons, Option.some.injEq] at hhead
          simp [hhead]
      · intro hmem
        rw [List.take_add, List.take_add] at hmem
        simp only [List.mem_append] at hmem
        rcases hmem with (h1 | h2) | h3
        · exact absurd (mem_take_eatOpt h1) (by decide)
        · exact absurd (mem_take_runLen h2) (by decide)
        · exact absurd (mem_take_eatOpt h3) (by decide)
    · exact absurd h (by simp)

theorem coreRange_bang {cs : List Char} {n : Nat}
    (h : coreRange cs = some n) : '!' ∉ cs.take n := by
  intro hmem
  unfold coreRange at h
  cases hc : coreMatch cs with
  | none => rw [hc] at h; simp at h
  | some c =>
    rw [hc] at h
    simp only [Option.map_some'] at h
    have hn := Option.some.inj h
    rw [← hn, List.take_add] at hmem
    rcases List.mem_append.mp hmem with h1 | h2
    · exact coreMatch_noBang hc h1
    · exact rangeExt_noBang h2

theorem refMatch_bang {cs : List Char} {n : Nat}
    (h : refMatch cs = some n) : BangShape (cs.take n) := by
  unfold refMatch at h
  cases hp : preMatch cs with
  | none =>
    simp only [hp] at h
    exact Or.inl (coreRange_bang h)
  | some p =>
    simp only [hp] at h
    cases hc : coreMatch (cs.drop p) with
    | none =>
      simp only [hc] at h
      exact Or.inl (coreRange_bang h)
    | some c =>
      simp only [hc] at h
      have hn := Option.some.inj h
      obtain ⟨a, hsplit, hna⟩ := preMatch_structure hp
      right
      refine ⟨a, (cs.drop p).take (c + rangeExt (cs.drop (p + c))), ?_, hna, ?_⟩
      · rw [← hn, Nat.add_assoc, List.take_add, hsplit, List.append_assoc]
        rfl
      · intro hmem
        rw [List.take_add] at hmem
        rcases List.mem_append.mp hmem with h1 | h2
        · exact coreMatch_noBang hc h1
        · rw [List.drop_drop] at h2
          exact rangeExt_noBang h2

theorem findall_shape {m : List Char → Option Nat}
    (hm : ∀ cs n, m cs = some n → BangShape (cs.take n)) :
    ∀ fuel cs r, r ∈ findallFuel m fuel cs → BangShape r.toList := by
  intro fuel
  induction fuel with
  | zero => intro cs r h; simp [findallFuel] at h
  | succ k ih =>
    intro cs r h
    cases cs with
    | nil => simp [findallFuel] at h
    | cons c rest =>
      revert h
      unfold findallFuel
      split
      · rename_i n hn
        intro h
        rcases List.mem_cons.mp h with h1 | h2
        · subst h1
          have := hm (c :: rest) (n + 1) hn
          rw [List.take_succ_cons] at this
          exact this
        · exact ih _ r h2
      · intro h
        exact ih _ r h

theorem extract_shape (f : String) : ∀ r ∈ extractRefs f, BangShape r.toList :=
  fun r hr => findall_shape (fun _ _ h => refMatch_bang h) _ _ r hr

theorem splitBang_of_noBang : ∀ {l : List Char}, '!' ∉ l → splitBang l = [l] := by
  intro l
  induction l with
  | nil => intro _; rfl
  | cons c t ih =>
    intro h
    have hc : ¬ c = '!' := fun hcc => h (hcc ▸ List.mem_cons_self c t)
    have ht : '!' ∉ t := fun htt => h (List.mem_cons_of_mem c htt)
    simp [splitBang, hc, ih ht]

theorem splitBang_single : ∀ {a b : List Char}, '!' ∉ a → '!' ∉ b →
    splitBang (a ++ '!' :: b) = [a, b] := by
  intro a
  induction a with
  | nil =>
    intro b _ hb
    simp [splitBang, splitBang_of_noBang hb]
  | cons c t ih =>
    intro b ha hb
    have hc : ¬ c = '!' := fun hcc => ha (hcc ▸ List.mem_cons_self c t)
    have ht : '!' ∉ t := fun htt => ha (List.mem_cons_of_mem c htt)
    simp [splitBang, hc, ih ht hb]

theorem classify_eq : ∀ {refs : List String},
    (∀ r ∈ refs, BangShape r.toList) →
    classifyGo refs = .ok
      (refs.filter (fun r => !(hasBang r)), (refs.filter hasBang).map crossOf) := by
  intro refs
  induction refs with
  | nil => intro _; rfl
  | cons r rs ih =>
    intro h
    have hr := h r (List.mem_cons_self r rs)
    have hrs := ih (fun x hx => h x (List.mem_cons_of_mem r hx))
    by_cases hb : hasBang r
    · rcases hr with hno | ⟨a, b, heq, hna, hnb⟩
      · exact absurd (List.elem_iff.mp hb) hno
      · have hsplit : splitBang r.toList = [a, b] := by
          rw [heq]; exact splitBang_single hna hnb
        have hcross : crossOf r = ⟨(stripQuotes a).asString, b.asString⟩ := by
          unfold crossOf
          rw [hsplit]
          rfl
        have h1 : List.filter (fun x => !(hasBang x)) (r :: rs) =
            List.filter (fun x => !(hasBang x)) rs := by
          simp [List.filter_cons, hb]
        have h2 : List.filter hasBang (r :: rs) = r :: List.filter hasBang rs := by
          simp [List.filter_cons, hb]
        rw [h1, h2, List.map_cons, hcross]
        unfold classifyGo
        rw [hsplit, hrs]
        simp [hb]
    · have h1 : List.filter (fun x => !(hasBang x)) (r :: rs) =
          r :: List.filter (fun x => !(hasBang x)) rs := by
        simp [List.filter_cons, Bool.not_eq_true] at hb ⊢
        simp [hb]
      have h2 : List.filter hasBang (r :: rs) = List.filter hasBang rs := by
        simp [List.filter_cons, Bool.not_eq_true] at hb ⊢
        simp [hb]
      rw [h1, h2]
      unfold classifyGo
      rw [hrs]
      simp [hb]

/-!  ## Circular detection with an empty dependency map  -/

theorem checkCircular_emptyMap (k : Nat) (ref : String) (vis acc : List String) :
    ∃ v', checkCircular [] (k + 1) ref [] vis acc = .ok (v', acc) := by
  by_cases h : ref ∈ vis
  · exact ⟨vis, by simp [checkCircular, h, lookupMap]⟩
  · exact ⟨vis ++ [ref], by simp [checkCircular, h, lookupMap]⟩

theorem runRefs_emptyMap (k : Nat) : ∀ (refs vis acc : List String),
    ∃ v', runRefs [] (k + 1) refs (vis, acc) = .ok (v', acc) := by
  intro refs
  induction refs with
  | nil => exact fun vis acc => ⟨vis, rfl⟩
  | cons r rs ih =>
    intro vis acc
    obtain ⟨v1, h1⟩ := checkCircular_emptyMap k r vis acc
    obtain ⟨v2, h2⟩ := ih v1 acc
    exact ⟨v2, by simp [runRefs, h1, h2]⟩

theorem detect_emptyMap {fuel : Nat} (h : 1 ≤ fuel) (f s : String)
    (refs : List String) : detectCircular [] fuel f s refs = .ok [] := by
  obtain ⟨k, rfl⟩ : ∃ k, fuel = k + 1 := ⟨fuel - 1, by omega⟩
  obtain ⟨v', hv⟩ := runRefs_emptyMap k refs [] []
  simp [detectCircular, hv]

/-- With an empty dependency map and at least one unit of recursion
budget, `analyze_dependencies` reaches the normal path: the record lists
the bang-free extracted references as direct, the others split into
cross-sheet pairs, no circular chain, successful validation. -/
theorem analyze_emptyMap (f s : String) {fuel : Nat} (hf : 1 ≤ fuel) :
    analyzeDependencies f s [] fuel =
      ⟨(extractRefs f).filter (fun r => !(hasBang r)), [], [],
       ((extractRefs f).filter hasBang).map crossOf, ⟨true, []⟩⟩ := by
  unfold analyzeDependencies analyzeCore
  rw [classify_eq (extract_shape f)]
  simp [detect_emptyMap hf]

/-!  ## Tokenizer facts for the unterminated-string claim  -/

theorem findQuote_none : ∀ {t : List Char}, '"' ∉ t → findQuote t = none := by
  intro t
  induction t with
  | nil => intro _; rfl
  | cons c r ih =>
    intro h
    have hc : ¬ c = '"' := fun hcc => h (hcc ▸ List.mem_cons_self c r)
    have hr : '"' ∉ r := fun hrr => h (List.mem_cons_of_mem c hrr)
    simp [findQuote, hc, ih hr]

theorem refMatch_quote {t : List Char} : refMatch ('"' :: t) = none := by
  have h1 : isSClass '"' = false := by decide
  have h2 : isLetterB '"' = false := by decide
  simp [refMatch, preMatch, coreRange, coreMatch, eatOpt, runLen,
    List.takeWhile_cons, h1, h2]

theorem buildTree_err : ∀ {pf : List PF} {st : List Ast} {m : String},
    buildTree pf st = .error m → m = "pop from empty list" := by
  intro pf
  induction pf with
  | nil => intro st m h; simp [buildTree] at h
  | cons x rest ih =>
    intro st m h
    cases x with
    | operand v tt => exact ih h
    | op v =>
      revert h
      unfold buildTree
      match st with
      | [] => intro h; exact (Except.error.inj h).symm
      | [a] => intro h; exact (Except.error.inj h).symm
      | a :: b :: s => intro h; exact ih h
    | funcCall v argc =>
      revert h
      unfold buildTree
      split
      · intro h; exact ih h
      · intro h; exact (Except.error.inj h).symm
    | funcFrame v a => exact ih h

theorem tokLoop_unterminated (k : Nat) (t : List Char) (pos : Nat) (hq : '"' ∉ t) :
    tokLoop (k + 1) ('"' :: t) pos = .error ⟨pos + ('"' :: t).length, '"'⟩ := by
  have hsp : pyIsSpace '"' = false := by decide
  have hal : isLetterB '"' = false := by decide
  have hop : runLen isOpChar ('"' :: t) = 0 := by
    simp [runLen, List.takeWhile_cons, show isOpChar '"' = false from by decide]
  simp [tokLoop, hsp, hal, refMatch_quote, hop, findQuote_none hq]

/-!  ## Claims  -/

/-- C1: parsing the formula `=2+3*4` (tokenize, then buildAst) succeeds
and yields the tree rooted in `+` with left operand `2` and right child
the `*` operation over `3` and `4`: `*` binds tighter than `+` under
the operator table and pop-while rule. -/
theorem c1_precedence_parse :
    tokenize "=2+3*4" = .ok
      [⟨"number", "2", 1⟩, ⟨"operator", "+", 2⟩, ⟨"number", "3", 3⟩,
       ⟨"operator", "*", 4⟩, ⟨"number", "4", 5⟩] ∧
    buildAst
      [⟨"number", "2", 1⟩, ⟨"operator", "+", 2⟩, ⟨"number", "3", 3⟩,
       ⟨"operator", "*", 4⟩, ⟨"number", "4", 5⟩] =
      .okr (some (.operation "+" (.operand "number" "2")
        (.operation "*" (.operand "number" "3") (.operand "number" "4")))) :=
  ⟨by rfl, by rfl⟩

/-- C2: `tokenize "=SUM(A1:A10)"` yields exactly the four tokens
function `SUM`, delimiter `(`, reference `A1:A10`, delimiter `)` (no
whitespace tokens), and building the AST from them yields a function
node `SUM` with the single reference argument `A1:A10`. -/
theorem c2_sum_tokens_parse :
    tokenize "=SUM(A1:A10)" = .ok
      [⟨"function", "SUM", 1⟩, ⟨"delimiter", "(", 4⟩,
       ⟨"reference", "A1:A10", 5⟩, ⟨"delimiter", ")", 11⟩] ∧
    buildAst
      [⟨"function", "SUM", 1⟩, ⟨"delimiter", "(", 4⟩,
       ⟨"reference", "A1:A10", 5⟩, ⟨"delimiter", ")", 11⟩] =
      .okr (some (.func "SUM" [.operand "reference" "A1:A10"])) :=
  ⟨by rfl, by rfl⟩

/-- C3: `analyze_dependencies "=Sheet2!B2+A1" "Sheet1"` returns direct
`{A1}` and cross-sheet `{(Sheet2, B2)}`; in general (with the instance's
dependency map unpopulated) every extracted reference containing `!` is
recorded cross-sheet with the sheet part stripped of surrounding quotes,
and every other extracted reference is recorded direct. -/
theorem c3_dependency_classification (f s : String) (fuel : Nat) (hf : 1 ≤ fuel) :
    analyzeDependencies "=Sheet2!B2+A1" "Sheet1" [] 1000 =
      ⟨["A1"], [], [], [⟨"Sheet2", "B2"⟩], ⟨true, []⟩⟩ ∧
    (analyzeDependencies f s [] fuel).direct =
      (extractRefs f).filter (fun r => !(hasBang r)) ∧
    (analyzeDependencies f s [] fuel).cross_sheet =
      ((extractRefs f).filter hasBang).map crossOf := by
  refine ⟨by rfl, ?_, ?_⟩
  · rw [analyze_emptyMap f s hf]
  · rw [analyze_emptyMap f s hf]

theorem c3_dependency_classification_witness :
    (1 ≤ (1 : Nat)) ∧
    (analyzeDependencies "=Sheet2!B2+A1" "Sheet1" [] 1000 =
      ⟨["A1"], [], [], [⟨"Sheet2", "B2"⟩], ⟨true, []⟩⟩ ∧
    (analyzeDependencies "='Q2 Data'!C3+B9" "Sheet1" [] 1).direct =
      (extractRefs "='Q2 Data'!C3+B9").filter (fun r => !(hasBang r)) ∧
    (analyzeDependencies "='Q2 Data'!C3+B9" "Sheet1" [] 1).cross_sheet =
      ((extractRefs "='Q2 Data'!C3+B9").filter hasBang).map crossOf) :=
  ⟨by decide, c3_dependency_classification "='Q2 Data'!C3+B9" "Sheet1" 1 (by decide)⟩

/-- C4: with the default bounds (max row 1048576, max column 16384) and
no existing references, `validate_references` accepts formulas with the
references `A1`, `Z99`, `AA1` and `XFD1048576`, and rejects one with
`XFD1048577` as out of bounds; column letters convert base-26 with
`A = 1`. -/
theorem c4_reference_bounds :
    validateReferences defaultContext "=A1" "Sheet1" [] = ⟨true, "", ""⟩ ∧
    validateReferences defaultContext "=Z99" "Sheet1" [] = ⟨true, "", ""⟩ ∧
    validateReferences defaultContext "=AA1" "Sheet1" [] = ⟨true, "", ""⟩ ∧
    validateReferences defaultContext "=XFD1048576" "Sheet1" [] = ⟨true, "", ""⟩ ∧
    validateReferences defaultContext "=XFD1048577" "Sheet1" [] =
      ⟨false, "Cell reference XFD1048577 is out of worksheet bounds", errAI003⟩ ∧
    columnToNumber "A" = 1 ∧ columnToNumber "XFD" = 16384 :=
  ⟨by rfl, by rfl, by rfl, by rfl, by rfl, by rfl, by rfl⟩

/-- C5 (counterexample): for `=SUM()` the tree construction underflows
its operand stack, and `build_ast` reports the generic
`AST construction failed: pop from empty list` details — not the
`Mismatched parentheses` failure the claim requires. -/
theorem c5_underflow_counterexample :
    tokenize "=SUM()" = .ok
      [⟨"function", "SUM", 1⟩, ⟨"delimiter", "(", 4⟩, ⟨"delimiter", ")", 5⟩] ∧
    buildAst [⟨"function", "SUM", 1⟩, ⟨"delimiter", "(", 4⟩, ⟨"delimiter", ")", 5⟩] =
      .err errAI002 "AST construction failed: pop from empty list" ∧
    "AST construction failed: pop from empty list" ≠ "Mismatched parentheses" :=
  ⟨by rfl, by rfl, by decide⟩

/-- C5 (amended): whenever the postfix-to-tree construction underflows
its operand stack, `build_ast` catches the exception and returns the
failure with code `AI_002` and details
`AST construction failed: pop from empty list` — a different report
from the `Mismatched parentheses` failure — and no exception escapes
(`buildAst` is total). -/
theorem c5_underflow_amended (ts : List Token) (pf : List PF) (m : String)
    (h1 : shuntRun ts [] [] = .ok pf) (h2 : buildTree pf [] = .error m) :
    buildAst ts = .err errAI002 ("AST construction failed: " ++ m) ∧
    m = "pop from empty list" ∧
    ("AST construction failed: " ++ m) ≠ "Mismatched parentheses" := by
  refine ⟨?_, buildTree_err h2, ?_⟩
  · simp only [buildAst, h1, h2]
  · intro heq
    have hl := congrArg String.length heq
    rw [String.length_append] at hl
    rw [show ("AST construction failed: " : String).length = 25 from rfl,
      show ("Mismatched parentheses" : String).length = 22 from rfl] at hl
    omega

theorem c5_underflow_amended_witness :
    (shuntRun [⟨"function", "SUM", 1⟩, ⟨"delimiter", "(", 4⟩, ⟨"delimiter", ")", 5⟩] [] [] =
        .ok [.funcCall "SUM" 1] ∧
      buildTree [.funcCall "SUM" 1] [] = .error "pop from empty list") ∧
    (buildAst [⟨"function", "SUM", 1⟩, ⟨"delimiter", "(", 4⟩, ⟨"delimiter", ")", 5⟩] =
        .err errAI002 ("AST construction failed: " ++ "pop from empty list") ∧
      "pop from empty list" = "pop from empty list" ∧
      ("AST construction failed: " ++ "pop from empty list") ≠ "Mismatched parentheses") :=
  ⟨⟨by rfl, by rfl⟩,
   c5_underflow_amended
     [⟨"function", "SUM", 1⟩, ⟨"delimiter", "(", 4⟩, ⟨"delimiter", ")", 5⟩]
     [.funcCall "SUM" 1] "pop from empty list" (by rfl) (by rfl)⟩

/-- C6 (counterexample): tokenizing `="abc` (an unterminated string
literal) fails through the single `Unexpected character` return site of
`tokenize` — position past the end of input, offending character the
opening quote — not through a distinct `UnterminatedString` kind. -/
theorem c6_unterminated_counterexample :
    tokenize "=\"abc" = .error ⟨5, '"'⟩ ∧
    tokErrKind ⟨5, '"'⟩ = SpecErrorKind.unexpectedCharacter ∧
    SpecErrorKind.unexpectedCharacter ≠ SpecErrorKind.unterminatedString ∧
    tokErrDetails ⟨5, '"'⟩ = "Unexpected character at position 5: \"" :=
  ⟨by rfl, rfl, by decide, by rfl⟩

/-- C6 (amended): whenever the scan of `tokenize` reaches a `"` with no
further `"` in the remaining input, it returns the generic
unexpected-character failure — position advanced to the end of the
input, offending character the quote — classified as
`unexpectedCharacter`; there is no distinct `UnterminatedString` kind. -/
theorem c6_unterminated_amended (fuel : Nat) (rest : List Char) (pos : Nat)
    (hf : 1 ≤ fuel) (hh : rest.head? = some '"') (hq : '"' ∉ rest.tail) :
    tokLoop fuel rest pos = .error ⟨pos + rest.length, '"'⟩ ∧
    tokErrKind ⟨pos + rest.length, '"'⟩ = SpecErrorKind.unexpectedCharacter := by
  obtain ⟨k, rfl⟩ : ∃ k, fuel = k + 1 := ⟨fuel - 1, by omega⟩
  cases rest with
  | nil => simp at hh
  | cons c t =>
    have hc : c = '"' := by simpa using hh
    subst hc
    exact ⟨tokLoop_unterminated k t pos (by simpa using hq), rfl⟩

theorem c6_unterminated_amended_witness :
    (1 ≤ (4 : Nat) ∧ (['"', 'a', 'b', 'c'] : List Char).head? = some '"' ∧
      '"' ∉ (['"', 'a', 'b', 'c'] : List Char).tail) ∧
    (tokLoop 4 ['"', 'a', 'b', 'c'] 1 =
        .error ⟨1 + (['"', 'a', 'b', 'c'] : List Char).length, '"'⟩ ∧
      tokErrKind ⟨1 + (['"', 'a', 'b', 'c'] : List Char).length, '"'⟩ =
        SpecErrorKind.unexpectedCharacter) :=
  ⟨⟨by decide, by decide, by decide⟩,
   c6_unterminated_amended 4 ['"', 'a', 'b', 'c'] 1 (by decide) (by decide) (by decide)⟩

/-- C7: `analyze_dependencies` never raises past its boundary (it is a
total function into `DepRecord`); whenever its `try` body fails
internally, the result is the record with all four reference lists empty
and `validation.success = false` carrying the descriptive
`Dependency analysis failed: ...` message. -/
theorem c7_failure_boundary (f s : String) (depMap : List (String × List String))
    (fuel : Nat) (e : String) (h : analyzeCore f s depMap fuel = .error e) :
    analyzeDependencies f s depMap fuel =
      ⟨[], [], [], [], ⟨false, ["Dependency analysis failed: " ++ e]⟩⟩ := by
  unfold analyzeDependencies
  rw [h]

theorem c7_failure_boundary_witness :
    (analyzeCore "=A1" "Sheet1" [] 0 = .error "maximum recursion depth exceeded") ∧
    analyzeDependencies "=A1" "Sheet1" [] 0 =
      ⟨[], [], [], [],
       ⟨false, ["Dependency analysis failed: " ++ "maximum recursion depth exceeded"]⟩⟩ :=
  ⟨by rfl, c7_failure_boundary "=A1" "Sheet1" [] 0 "maximum recursion depth exceeded" (by rfl)⟩

/-- C8: with an empty dependency map (single-formula analysis) and any
positive recursion budget, `analyze_dependencies` reports no circular
reference and `validation.success = true` for every formula and sheet
name: circularity can only arise from caller-supplied cross-formula
dependency data. -/
theorem c8_no_circular_without_map (f s : String) (fuel : Nat) (hf : 1 ≤ fuel) :
    (analyzeDependencies f s [] fuel).circular = [] ∧
    (analyzeDependencies f s [] fuel).validation.success = true := by
  rw [analyze_emptyMap f s hf]
  exact ⟨rfl, rfl⟩

theorem c8_no_circular_without_map_witness :
    (1 ≤ (1 : Nat)) ∧
    ((analyzeDependencies "=A1+B2" "Sheet1" [] 1).circular = [] ∧
     (analyzeDependencies "=A1+B2" "Sheet1" [] 1).validation.success = true) :=
  ⟨by decide, c8_no_circular_without_map "=A1+B2" "Sheet1" 1 (by decide)⟩

/-- C9: calling the cached `validate_syntax` twice on the same formula
yields identical results, for any reachable (indeed any) cache state:
the check is deterministic and no state mutation is observable through
its result. -/
theorem c9_validate_twice_identical (cache : List (String × ValidationResult))
    (f : String) :
    (validateSyntaxCached ((validateSyntaxCached cache f).2) f).1 =
      (validateSyntaxCached cache f).1 := by
  cases hc : cacheFind cache f with
  | some r => simp [validateSyntaxCached, hc]
  | none => simp [validateSyntaxCached, hc, cacheFind]

/-- C10: `tokenize` starts scanning at index 1 and never examines the
first character: any two non-empty formulas agreeing from index 1 onward
tokenize identically (the leading `=` is never actually checked). -/
theorem c10_first_char_ignored (s t : String) (_hs : s ≠ "") (_ht : t ≠ "")
    (h : s.toList.drop 1 = t.toList.drop 1) : tokenize s = tokenize t := by
  unfold tokenize
  rw [h]

theorem c10_first_char_ignored_witness :
    (("=A1+2" : String) ≠ "" ∧ ("#A1+2" : String) ≠ "" ∧
      ("=A1+2" : String).toList.drop 1 = ("#A1+2" : String).toList.drop 1) ∧
    tokenize "=A1+2" = tokenize "#A1+2" :=
  ⟨⟨by decide, by decide, by rfl⟩,
   c10_first_char_ignored "=A1+2" "#A1+2" (by decide) (by decide) (by rfl)⟩

end Vexcel
